import Mathlib

/-!
Verification of the reactive metrics core of the repository.

The repository ships the caller scripts (`scripts/analyze_reactive_metrics.py`,
`scripts/generate_html_report.py`, `scripts/process_splunk_export.py`,
`scripts/get_reactive_metrics.py`, ...) while the core modules they import
(`src/application/reativo/metrics_analyzer.py`, `recommendation_engine.py`,
`reactive_service.py`, `src/infrastructure/repositories/file_metrics_repository.py`)
are not part of the provided sources.  Definitions for those missing modules are
therefore modelled from the specification (their doc comments say so
explicitly); definitions for the script-level behaviour are translated from
the script sources.
-/

namespace Reactive

/-- Modelled from the spec: canonical row shape produced by the Log Row
Normalizer (spec section 3, `NormalizedRow`): endpoint, method, status code,
optional response time, optional client id and a timestamp.  Timestamps are
modelled as integers (seconds). -/
structure NormalizedRow where
  endpoint : String
  method : String
  status_code : Nat
  response_time_ms : Option ℚ
  client_id : Option String
  timestamp : Int
deriving DecidableEq

/-- Modelled from the spec: the overall block of a Snapshot (spec section 3):
total requests, total errors, overall error rate and unique endpoint count. -/
structure OverallMetrics where
  total_requests : Nat
  total_errors : Nat
  overall_error_rate : ℚ
  unique_endpoints : Nat
deriving DecidableEq

/-- Modelled from the spec: per-endpoint statistics of a Snapshot (spec
section 3, `EndpointMetric`).  `error_rate` is a percentage (the scripts in
src render `endpoint.error_rate` directly with a `%` suffix and divide
`get_overall_error_rate()` by 100 to obtain a ratio). -/
structure EndpointMetric where
  endpoint : String
  total_requests : Nat
  total_errors : Nat
  client_errors_4xx : Nat
  server_errors_5xx : Nat
  error_rate : ℚ
  avg_response_time : Option ℚ
  unique_clients : Nat
deriving DecidableEq

/-- Modelled from the spec: an immutable snapshot (spec section 3, `Snapshot`)
with overall metrics, the per-endpoint sequence in discovery order, and the
three derived views. -/
structure Snapshot where
  snapshot_id : String
  timestamp : Int
  time_window : Int
  overall_metrics : OverallMetrics
  endpoints : List EndpointMetric
  critical : List EndpointMetric
  most_used : List EndpointMetric
  most_failed : List EndpointMetric
deriving DecidableEq

/-- Modelled from the spec: tunable aggregation thresholds (spec sections 4.2
and 6): volume and error-rate thresholds for the critical classification and
the size of the top-N views. -/
structure AggregatorConfig where
  volume_threshold : Nat
  error_threshold : ℚ
  top_n : Nat
deriving DecidableEq

/-- Default aggregation configuration (numeric defaults are configuration per
spec section 6). -/
def defaultAggregatorConfig : AggregatorConfig :=
  { volume_threshold := 100, error_threshold := 10, top_n := 10 }

/-- Modelled from the spec: a row is an error when its status code is at least
400 (spec section 3: errors = status_code ≥ 400). -/
def isError (s : Nat) : Bool := decide (400 ≤ s)

/-- Modelled from the spec: client errors are the 4xx status codes. -/
def is4xx (s : Nat) : Bool := decide (400 ≤ s ∧ s < 500)

/-- Modelled from the spec: server errors are the status codes from 500 up. -/
def is5xx (s : Nat) : Bool := decide (500 ≤ s)

/-- Lexicographic code-point comparison of character lists; the standard
string ordering used for the name-ascending tie-breaks. -/
def charsLE : List Char → List Char → Bool
  | [], _ => true
  | _ :: _, [] => false
  | a :: as, b :: bs =>
    if a.toNat < b.toNat then true
    else if b.toNat < a.toNat then false
    else charsLE as bs

/-- Lexicographic order on endpoint names (code-point order, as produced by
sorting strings in the implementation language). -/
def strLE (a b : String) : Prop := charsLE a.data b.data = true

instance : DecidableRel strLE := fun a b => by
  unfold strLE; exact inferInstance

/-- Rows of one endpoint group (spec section 4.2: group rows by endpoint key). -/
def rowsFor (rows : List NormalizedRow) (e : String) : List NormalizedRow :=
  rows.filter (fun r => r.endpoint == e)

/-- Modelled from the spec: error rate as a percentage, 0 when there are no
requests (spec section 3: error_rate = total_errors/total_requests, 0 if
total_requests = 0; spec section 4.2: expressed as a percentage). -/
def errorRateOf (errors requests : Nat) : ℚ :=
  if requests = 0 then 0 else (errors : ℚ) / (requests : ℚ) * 100

/-- Modelled from the spec: mean response time over rows with a present value,
`none` when no row of the group carries timing data (spec section 4.2). -/
def avgResponseTime (rows : List NormalizedRow) : Option ℚ :=
  let times := rows.filterMap (fun r => r.response_time_ms)
  if times.length = 0 then none else some (times.sum / (times.length : ℚ))

/-- Modelled from the spec: number of distinct present client ids of a group
(spec section 4.2). -/
def uniqueClients (rows : List NormalizedRow) : Nat :=
  (rows.filterMap (fun r => r.client_id)).dedup.length

/-- Modelled from the spec: the `EndpointMetric` computed for one endpoint key
from the full row collection (spec section 4.2). -/
def metricFor (rows : List NormalizedRow) (e : String) : EndpointMetric :=
  { endpoint := e
    total_requests := (rowsFor rows e).length
    total_errors := (rowsFor rows e).countP (fun r => isError r.status_code)
    client_errors_4xx := (rowsFor rows e).countP (fun r => is4xx r.status_code)
    server_errors_5xx := (rowsFor rows e).countP (fun r => is5xx r.status_code)
    error_rate :=
      errorRateOf ((rowsFor rows e).countP (fun r => isError r.status_code))
        (rowsFor rows e).length
    avg_response_time := avgResponseTime (rowsFor rows e)
    unique_clients := uniqueClients (rowsFor rows e) }

/-- Endpoint keys in discovery order (first appearance), one per group. -/
def keysInOrder (rows : List NormalizedRow) : List String :=
  (rows.map (fun r => r.endpoint)).dedup

/-- Per-endpoint metrics in discovery order (spec section 3: insertion order =
discovery order). -/
def endpointsOf (rows : List NormalizedRow) : List EndpointMetric :=
  (keysInOrder rows).map (metricFor rows)

/-- Endpoint keys sorted ascending by name; the canonical enumeration used to
build the deterministically ordered top-N views. -/
def sortedKeys (rows : List NormalizedRow) : List String :=
  (keysInOrder rows).insertionSort strLE

/-- Ordering relation of the most-used view: total_requests descending, ties
broken by endpoint name ascending (spec section 4.2). -/
def usedBefore (a b : EndpointMetric) : Prop :=
  b.total_requests < a.total_requests ∨
    (a.total_requests = b.total_requests ∧ strLE a.endpoint b.endpoint)

instance : DecidableRel usedBefore := fun a b => by
  unfold usedBefore; exact inferInstance

/-- Ordering relation of the most-failed view: total_errors descending, ties
broken by endpoint name ascending (spec section 4.2). -/
def failedBefore (a b : EndpointMetric) : Prop :=
  b.total_errors < a.total_errors ∨
    (a.total_errors = b.total_errors ∧ strLE a.endpoint b.endpoint)

instance : DecidableRel failedBefore := fun a b => by
  unfold failedBefore; exact inferInstance

/-- Modelled from the spec: most_used view, top-N by total_requests descending
with ties broken by endpoint name ascending (spec section 4.2). -/
def mostUsed (cfg : AggregatorConfig) (rows : List NormalizedRow) :
    List EndpointMetric :=
  (((sortedKeys rows).map (metricFor rows)).insertionSort usedBefore).take cfg.top_n

/-- Modelled from the spec: most_failed view, top-N by total_errors descending
with ties broken by endpoint name ascending (spec section 4.2). -/
def mostFailed (cfg : AggregatorConfig) (rows : List NormalizedRow) :
    List EndpointMetric :=
  (((sortedKeys rows).map (metricFor rows)).insertionSort failedBefore).take cfg.top_n

/-- Modelled from the spec: critical view, the endpoints meeting both the
volume and the error-rate threshold (spec section 4.2), as a sub-view of the
endpoint sequence. -/
def criticalOf (cfg : AggregatorConfig) (rows : List NormalizedRow) :
    List EndpointMetric :=
  (endpointsOf rows).filter
    (fun m =>
      decide (cfg.volume_threshold ≤ m.total_requests) &&
        decide (cfg.error_threshold ≤ m.error_rate))

/-- Modelled from the spec: overall metrics obtained by summing across all
groups; the overall error rate is computed over the whole set (spec
section 4.2). -/
def overallOf (rows : List NormalizedRow) : OverallMetrics :=
  { total_requests :=
      ((keysInOrder rows).map (fun e => (metricFor rows e).total_requests)).sum
    total_errors :=
      ((keysInOrder rows).map (fun e => (metricFor rows e).total_errors)).sum
    overall_error_rate :=
      errorRateOf
        ((keysInOrder rows).map (fun e => (metricFor rows e).total_errors)).sum
        ((keysInOrder rows).map (fun e => (metricFor rows e).total_requests)).sum
    unique_endpoints := (keysInOrder rows).length }

/-- Modelled from the spec: `aggregate` of the Metrics Aggregator (spec
section 4.2).  The snapshot identity data (id, timestamp, window) is passed in
so the function is pure. -/
def aggregate (cfg : AggregatorConfig) (sid : String) (ts window : Int)
    (rows : List NormalizedRow) : Snapshot :=
  { snapshot_id := sid
    timestamp := ts
    time_window := window
    overall_metrics := overallOf rows
    endpoints := endpointsOf rows
    critical := criticalOf cfg rows
    most_used := mostUsed cfg rows
    most_failed := mostFailed cfg rows }

/-- Modelled from the spec: a raw log record as seen by the Log Row Normalizer
(spec section 4.1): a loosely-typed record whose fields may be absent; numeric
fields that failed to parse are absent rather than zero. -/
structure RawRecord where
  endpoint : Option String
  method : Option String
  status_code : Option Nat
  response_time_ms : Option ℚ
  client_id : Option String
  timestamp : Int
deriving DecidableEq

/-- Modelled from the spec: endpoint path normalization (spec section 4.1:
query string dropped, trailing slash stripped). -/
def normalizeEndpoint (e : String) : String :=
  let noQuery := (e.data.takeWhile (fun c => c ≠ '?')).asString
  if noQuery.length > 1 && noQuery.endsWith "/" then noQuery.dropRight 1 else noQuery

/-- Modelled from the spec: the Log Row Normalizer (spec section 4.1).  Fails
with `MalformedRowError` exactly when the endpoint field is absent or empty;
other absent fields stay absent (never conflated with zero), except the
status code of the canonical row shape, which is an integer. -/
def normalizeRow (raw : RawRecord) : Except String NormalizedRow :=
  match raw.endpoint with
  | none => Except.error "MalformedRowError"
  | some e =>
    if e = "" then Except.error "MalformedRowError"
    else
      Except.ok
        { endpoint := normalizeEndpoint e
          method := raw.method.getD ""
          status_code := raw.status_code.getD 0
          response_time_ms := raw.response_time_ms
          client_id := raw.client_id
          timestamp := raw.timestamp }

/-- Normalization of a batch: the surviving rows in order together with the
count of skipped rows (spec sections 4.1 and 7: per-row failures are absorbed
locally with a running skipped-row counter). -/
def normalizeAll (raws : List RawRecord) : List NormalizedRow × Nat :=
  raws.foldr
    (fun raw acc =>
      match normalizeRow raw with
      | Except.ok row => (row :: acc.1, acc.2)
      | Except.error _ => (acc.1, acc.2 + 1))
    ([], 0)

/-- Result of one aggregation pass over raw rows: the snapshot plus the
skipped-row counter exposed on the result (spec section 7). -/
structure AggregateResult where
  snapshot : Snapshot
  skipped_count : Nat
deriving DecidableEq

/-- Modelled from the spec: the full aggregation pass over raw records:
normalize every row, skip and count the failures, aggregate the survivors
(spec sections 4.1, 4.2, 7). -/
def aggregateRaw (cfg : AggregatorConfig) (sid : String) (ts window : Int)
    (raws : List RawRecord) : AggregateResult :=
  { snapshot := aggregate cfg sid ts window (normalizeAll raws).1
    skipped_count := (normalizeAll raws).2 }

/-- Modelled from the spec: a per-endpoint trend between two snapshots (spec
section 3, `Trend`; the `is_new` flag is spec section 4.4). -/
structure Trend where
  endpoint : String
  previous_error_rate : ℚ
  current_error_rate : ℚ
  change_percentage : ℚ
  is_degrading : Bool
  is_improving : Bool
  is_new : Bool
deriving DecidableEq

/-- Default degrading threshold: +5 percentage points (spec section 4.4). -/
def defaultDegradingThreshold : ℚ := 5

/-- Default improving threshold: −5 percentage points (spec section 4.4). -/
def defaultImprovingThreshold : ℚ := -5

/-- First metric of a snapshot carrying the given endpoint key. -/
def findMetric (s : Snapshot) (e : String) : Option EndpointMetric :=
  s.endpoints.find? (fun m => m.endpoint == e)

/-- Modelled from the spec: the trend computed for one current-snapshot
endpoint (spec section 4.4): change in percentage points when the endpoint is
present in the previous snapshot, an `is_new` trend with previous rate 0
otherwise. -/
def trendFor (deg imp : ℚ) (prev : Snapshot) (m : EndpointMetric) : Trend :=
  match findMetric prev m.endpoint with
  | some p =>
    { endpoint := m.endpoint
      previous_error_rate := p.error_rate
      current_error_rate := m.error_rate
      change_percentage := m.error_rate - p.error_rate
      is_degrading := decide (deg < m.error_rate - p.error_rate)
      is_improving := decide (m.error_rate - p.error_rate < imp)
      is_new := false }
  | none =>
    { endpoint := m.endpoint
      previous_error_rate := 0
      current_error_rate := m.error_rate
      change_percentage := m.error_rate
      is_degrading := false
      is_improving := false
      is_new := true }

/-- Modelled from the spec: the Trend Comparator (spec section 4.4).  One
trend per endpoint of the current snapshot; endpoints only in the previous
snapshot are not emitted. -/
def compare_snapshots (deg imp : ℚ) (prev cur : Snapshot) : List Trend :=
  cur.endpoints.map (trendFor deg imp prev)

/-- Priority levels of the three recommendation outputs (spec section 3). -/
inductive Priority where
  | low
  | medium
  | high
  | critical
deriving DecidableEq

/-- Modelled from the spec: tunable parameters of the Recommendation Engine
(spec sections 4.5 and 6): scoring weights, the high-severity error cutoff,
the score bands for priority labels, and the coverage visibility threshold. -/
structure EngineConfig where
  volume_weight : ℚ
  error_weight : ℚ
  high_severity_cutoff : ℚ
  critical_score : ℚ
  high_score : ℚ
  medium_score : ℚ
  visibility_threshold : Nat
deriving DecidableEq

/-- Default engine configuration: 0.5/0.5 weights (spec section 4.5); the
other numeric defaults are configuration per spec section 6. -/
def defaultEngineConfig : EngineConfig :=
  { volume_weight := 1 / 2
    error_weight := 1 / 2
    high_severity_cutoff := 25
    critical_score := 80
    high_score := 60
    medium_score := 40
    visibility_threshold := 50 }

/-- Largest request count of a snapshot, the volume normalization reference. -/
def maxRequests (s : Snapshot) : Nat :=
  (s.endpoints.map (fun m => m.total_requests)).foldr max 0

/-- Largest error rate of a snapshot, the error normalization reference. -/
def maxErrorRate (s : Snapshot) : ℚ :=
  (s.endpoints.map (fun m => m.error_rate)).foldr max 0

/-- Modelled from the spec: normalized volume of one endpoint, in [0,1]
relative to the busiest endpoint of the snapshot (spec section 4.5:
normalized(total_requests)). -/
def normalizedVolume (s : Snapshot) (m : EndpointMetric) : ℚ :=
  if maxRequests s = 0 then 0 else (m.total_requests : ℚ) / (maxRequests s : ℚ)

/-- Modelled from the spec: normalized error rate of one endpoint, in [0,1]
relative to the worst endpoint of the snapshot (spec section 4.5:
normalized(error_rate)). -/
def normalizedError (s : Snapshot) (m : EndpointMetric) : ℚ :=
  if maxErrorRate s = 0 then 0 else m.error_rate / maxErrorRate s

/-- Modelled from the spec: priority score of the prioritized pass, the
weighted sum of the normalized volume and error factors, on a 0..100 scale
(spec section 4.5). -/
def priorityScore (cfg : EngineConfig) (s : Snapshot) (m : EndpointMetric) : ℚ :=
  100 * (cfg.volume_weight * normalizedVolume s m + cfg.error_weight * normalizedError s m)

/-- Modelled from the spec: priority label of the prioritized pass.  An error
rate above the high-severity cutoff forces `critical` regardless of the
volume-dependent score (spec section 4.5: severity is a floor); otherwise the
label follows the score bands. -/
def priorityOf (cfg : EngineConfig) (s : Snapshot) (m : EndpointMetric) : Priority :=
  if cfg.high_severity_cutoff < m.error_rate then Priority.critical
  else if cfg.critical_score ≤ priorityScore cfg s m then Priority.critical
  else if cfg.high_score ≤ priorityScore cfg s m then Priority.high
  else if cfg.medium_score ≤ priorityScore cfg s m then Priority.medium
  else Priority.low

/-- Modelled from the spec: the deterministic rule table for suggested tests
(spec section 4.5): nonzero 4xx suggests an input-validation test, nonzero 5xx
a server-error/retry test, zero errors a load/smoke test. -/
def suggestedTests (m : EndpointMetric) : List String :=
  (if 0 < m.client_errors_4xx then ["input-validation test for " ++ m.endpoint] else []) ++
    (if 0 < m.server_errors_5xx then ["server-error retry test for " ++ m.endpoint] else []) ++
      (if m.total_errors = 0 then ["load smoke test for " ++ m.endpoint] else [])

/-- Modelled from the spec: a prioritized-test recommendation (spec
section 3). -/
structure Recommendation where
  endpoint : String
  priority : Priority
  priority_score : ℚ
  description : String
  suggested_action : String
  suggested_tests : List String
deriving DecidableEq

/-- Output order of the prioritized pass: priority score descending, ties
broken by endpoint name ascending (spec section 4.5). -/
def recBefore (a b : Recommendation) : Prop :=
  b.priority_score < a.priority_score ∨
    (a.priority_score = b.priority_score ∧ strLE a.endpoint b.endpoint)

instance : DecidableRel recBefore := fun a b => by
  unfold recBefore; exact inferInstance

/-- Modelled from the spec: the recommendation built for one endpoint of the
snapshot in the prioritized pass (spec section 4.5). -/
def mkRecommendation (cfg : EngineConfig) (s : Snapshot) (m : EndpointMetric) :
    Recommendation :=
  { endpoint := m.endpoint
    priority := priorityOf cfg s m
    priority_score := priorityScore cfg s m
    description := "high-value endpoint to cover"
    suggested_action := "add tests for " ++ m.endpoint
    suggested_tests := suggestedTests m }

/-- Modelled from the spec: the prioritized-recommendations pass (spec
section 4.5).  Malformed or missing snapshot data degrades to an empty list
(spec section 4.5 error handling); the optional trends input is not used by
this pass. -/
def generate_prioritized_recommendations (cfg : EngineConfig)
    (snap : Option Snapshot) (_trends : Option (List Trend)) :
    List Recommendation :=
  match snap with
  | none => []
  | some s => (s.endpoints.map (mkRecommendation cfg s)).insertionSort recBefore

/-- Modelled from the spec: a regression-risk entry (spec section 3). -/
structure RegressionRisk where
  endpoint : String
  priority : Priority
  priority_score : ℚ
  description : String
  suggested_action : String
deriving DecidableEq

/-- Modelled from the spec: fixed priority bands of the regression pass (spec
section 4.5: more than 20 percentage points is critical, more than 10 high,
otherwise medium). -/
def regressionPriority (change : ℚ) : Priority :=
  if 20 < change then Priority.critical
  else if 10 < change then Priority.high
  else Priority.medium

/-- Modelled from the spec: suggested action of the regression pass, selected
from a fixed catalogue by whether the regression correlates with rising 4xx or
rising 5xx (spec section 4.5). -/
def regressionAction (s : Snapshot) (e : String) : String :=
  match findMetric s e with
  | some m =>
    if m.server_errors_5xx < m.client_errors_4xx then
      "review recent input-contract changes"
    else "review recent deploys/dependencies"
  | none => "review recent deploys/dependencies"

/-- Output order of the regression pass: change magnitude descending, ties
broken by endpoint name ascending. -/
def riskBefore (a b : RegressionRisk) : Prop :=
  b.priority_score < a.priority_score ∨
    (a.priority_score = b.priority_score ∧ strLE a.endpoint b.endpoint)

instance : DecidableRel riskBefore := fun a b => by
  unfold riskBefore; exact inferInstance

/-- Modelled from the spec: the regression-risks pass (spec section 4.5).  It
requires trends: a missing snapshot or missing trends degrades to an empty
list; otherwise the degrading trends are scored by change magnitude. -/
def identify_regression_risks (snap : Option Snapshot)
    (trends : Option (List Trend)) : List RegressionRisk :=
  match snap, trends with
  | some s, some ts =>
    ((ts.filter (fun t => t.is_degrading)).map
        (fun t =>
          { endpoint := t.endpoint
            priority := regressionPriority t.change_percentage
            priority_score := t.change_percentage
            description := "error rate increased"
            suggested_action := regressionAction s t.endpoint })).insertionSort riskBefore
  | _, _ => []

/-- Coverage status answered by the external test-inventory collaborator
(spec section 6). -/
inductive CoverageStatus where
  | not_covered
  | identical
  | different
deriving DecidableEq

/-- One entry of the external test-inventory input (spec section 6). -/
structure InventoryEntry where
  endpoint : String
  method : String
  status : CoverageStatus
deriving DecidableEq

/-- Coverage status of an endpoint according to the supplied inventory; an
endpoint with no inventory entry is not covered. -/
def coverageStatusFor (inv : List InventoryEntry) (e : String) : CoverageStatus :=
  match inv.find? (fun i => i.endpoint == e) with
  | some i => i.status
  | none => CoverageStatus.not_covered

/-- Modelled from the spec: a coverage-gap entry (spec section 3). -/
structure CoverageGap where
  endpoint : String
  priority : Priority
  priority_score : ℚ
  description : String
  suggested_action : String
deriving DecidableEq

/-- Modelled from the spec: score of one coverage gap.  Higher traffic
outranks lower traffic; a nonzero historical error rate outranks an
otherwise-identical endpoint with zero errors (spec section 4.5); the bonus
of one half can never reorder endpoints with different integer request
counts. -/
def gapScore (m : EndpointMetric) : ℚ :=
  (m.total_requests : ℚ) + (if 0 < m.error_rate then 1 / 2 else 0)

/-- Output order of the coverage pass: gap score descending, ties broken by
endpoint name ascending. -/
def gapBefore (a b : CoverageGap) : Prop :=
  b.priority_score < a.priority_score ∨
    (a.priority_score = b.priority_score ∧ strLE a.endpoint b.endpoint)

instance : DecidableRel gapBefore := fun a b => by
  unfold gapBefore; exact inferInstance

/-- Modelled from the spec: the coverage-gaps pass (spec section 4.5).  A
missing snapshot or missing inventory degrades to an empty list; otherwise the
uncovered endpoints above the visibility threshold are ranked by gap score. -/
def suggest_test_coverage_gaps (cfg : EngineConfig) (snap : Option Snapshot)
    (inventory : Option (List InventoryEntry)) : List CoverageGap :=
  match snap, inventory with
  | some s, some inv =>
    ((s.endpoints.filter
          (fun m =>
            decide (cfg.visibility_threshold < m.total_requests) &&
              decide (coverageStatusFor inv m.endpoint = CoverageStatus.not_covered))).map
        (fun m =>
          { endpoint := m.endpoint
            priority :=
              if cfg.high_severity_cutoff < m.error_rate then Priority.high
              else Priority.medium
            priority_score := gapScore m
            description := "high-traffic endpoint without test coverage"
            suggested_action := "add a regression test for " ++ m.endpoint })).insertionSort gapBefore
  | _, _ => []

/-- Snapshot order by timestamp ascending (oldest first). -/
def olderFirst (a b : Snapshot) : Prop := a.timestamp ≤ b.timestamp

instance : DecidableRel olderFirst := fun a b => by
  unfold olderFirst; exact inferInstance

/-- Modelled from the spec: `get_snapshots_in_range` of the Snapshot Store
(spec section 4.3): the stored snapshots whose timestamp lies in the closed
interval, ordered oldest-first. -/
def get_snapshots_in_range (store : List Snapshot) (start stop : Int) :
    List Snapshot :=
  (store.filter
      (fun s => decide (start ≤ s.timestamp) && decide (s.timestamp ≤ stop))).insertionSort
    olderFirst

/-- One day in the timestamp unit (seconds), the look-back used by
`generate_html_report.main`. -/
def oneDay : Int := 86400

/-- Baseline selection of `generate_html_report.main` (lines 591 to 599): the
snapshots of the last day up to and including the current snapshot's own
timestamp are fetched, and when that list is non-empty its first element is
used as the comparison baseline. -/
def chooseBaseline (store : List Snapshot) (s : Snapshot) : Option Snapshot :=
  (get_snapshots_in_range store (s.timestamp - oneDay) s.timestamp).head?

/-- Trends computed by `generate_html_report.main`: the comparison against the
chosen baseline when one exists, no trends otherwise. -/
def mainTrends (store : List Snapshot) (s : Snapshot) : List Trend :=
  match chooseBaseline store s with
  | some p => compare_snapshots defaultDegradingThreshold defaultImprovingThreshold p s
  | none => []

/-- Integer rendering used for Python `f-string` `:.0f` formatting (round to
the nearest integer). -/
def format0f (q : ℚ) : String := toString (round q)

/-- Average-response-time cell of `process_splunk_export.print_metrics`
(lines 38 to 45): `endpoint_data.get('avg_response_time')` yields None both
for an absent key and for a null value, and the conditional expression
renders None as "N/A". -/
def pse_avg_time_cell (avg : Option ℚ) : String :=
  match avg with
  | some q => format0f q ++ "ms"
  | none => "N/A"

/-- Average-response-time cell of `get_reactive_metrics.print_metrics`
(lines 43 to 49): `endpoint_data.get('avg_response_time', 0)` substitutes 0
for an absent key, and the `:.0f` format raises TypeError when the stored
value is None.  The outer layer of the argument distinguishes an absent key
(`none`) from a present value (`some`), whose inner layer distinguishes null
(`none`) from a number. -/
def grm_avg_time_cell (field : Option (Option ℚ)) : Except String String :=
  match field with
  | none => Except.ok (format0f 0 ++ "ms")
  | some none => Except.error "TypeError: unsupported format string passed to NoneType.__format__"
  | some (some q) => Except.ok (format0f q ++ "ms")

/-- Every row counted as an error is counted exactly once as 4xx or 5xx. -/
lemma countP_error_split (l : List NormalizedRow) :
    l.countP (fun r => isError r.status_code) =
      l.countP (fun r => is4xx r.status_code) +
        l.countP (fun r => is5xx r.status_code) := by
  induction l with
  | nil => simp
  | cons a t ih =>
    simp only [List.countP_cons]
    rw [ih]
    have hpoint :
        (if isError a.status_code then 1 else 0) =
          (if is4xx a.status_code then 1 else 0) +
            (if is5xx a.status_code then 1 else 0) := by
      simp only [isError, is4xx, is5xx]
      split_ifs <;> simp_all <;> omega
    omega

/-- Every metric reachable from an aggregated snapshot is the metric of some
endpoint key. -/
lemma mem_aggregate_views {cfg : AggregatorConfig} {sid : String} {ts w : Int}
    {rows : List NormalizedRow} {m : EndpointMetric}
    (hm : m ∈ (aggregate cfg sid ts w rows).endpoints ∨
        m ∈ (aggregate cfg sid ts w rows).critical ∨
          m ∈ (aggregate cfg sid ts w rows).most_used ∨
            m ∈ (aggregate cfg sid ts w rows).most_failed) :
    ∃ e, m = metricFor rows e := by
  rcases hm with h | h | h | h
  · rcases List.mem_map.mp h with ⟨e, _, he⟩
    exact ⟨e, he.symm⟩
  · have h2 : m ∈ endpointsOf rows := (List.mem_filter.mp h).1
    rcases List.mem_map.mp h2 with ⟨e, _, he⟩
    exact ⟨e, he.symm⟩
  · have h2 := List.take_subset _ _ h
    rw [List.mem_insertionSort] at h2
    rcases List.mem_map.mp h2 with ⟨e, _, he⟩
    exact ⟨e, he.symm⟩
  · have h2 := List.take_subset _ _ h
    rw [List.mem_insertionSort] at h2
    rcases List.mem_map.mp h2 with ⟨e, _, he⟩
    exact ⟨e, he.symm⟩

/-- C1: in every snapshot produced by the Metrics Aggregator, every contained
`EndpointMetric` satisfies `total_errors = client_errors_4xx +
server_errors_5xx` and `total_errors ≤ total_requests`. -/
theorem aggregate_error_count_invariant (cfg : AggregatorConfig) (sid : String)
    (ts w : Int) (rows : List NormalizedRow) (m : EndpointMetric)
    (hm : m ∈ (aggregate cfg sid ts w rows).endpoints ∨
        m ∈ (aggregate cfg sid ts w rows).critical ∨
          m ∈ (aggregate cfg sid ts w rows).most_used ∨
            m ∈ (aggregate cfg sid ts w rows).most_failed) :
    m.total_errors = m.client_errors_4xx + m.server_errors_5xx ∧
      m.total_errors ≤ m.total_requests := by
  rcases mem_aggregate_views hm with ⟨e, he⟩
  subst he
  exact ⟨countP_error_split _, List.countP_le_length _⟩

/-- Three-row batch used to instantiate the universal theorems. -/
def rowsW : List NormalizedRow :=
  [{ endpoint := "a", method := "GET", status_code := 200, response_time_ms := none,
     client_id := none, timestamp := 0 },
   { endpoint := "a", method := "GET", status_code := 404, response_time_ms := none,
     client_id := none, timestamp := 0 },
   { endpoint := "a", method := "GET", status_code := 503, response_time_ms := none,
     client_id := none, timestamp := 0 }]

lemma rowsW_endpoints :
    (aggregate defaultAggregatorConfig "s" 0 0 rowsW).endpoints =
      [metricFor rowsW "a"] := rfl

/-- Witness for C1: the invariant holds of the single metric aggregated from
a concrete three-row batch. -/
theorem aggregate_error_count_invariant_witness :
    (metricFor rowsW "a").total_errors =
        (metricFor rowsW "a").client_errors_4xx +
          (metricFor rowsW "a").server_errors_5xx ∧
      (metricFor rowsW "a").total_errors ≤ (metricFor rowsW "a").total_requests :=
  aggregate_error_count_invariant defaultAggregatorConfig "s" 0 0 rowsW
    (metricFor rowsW "a")
    (Or.inl (rowsW_endpoints ▸ List.mem_singleton_self _))

/-- C2: in every aggregated snapshot, the error rate of every contained
endpoint metric and of the overall block is the error count divided by the
request count (as a percentage), and it is 0 when the request count is 0, the
division never being attempted on zero. -/
theorem error_rate_defined_by_division (cfg : AggregatorConfig) (sid : String)
    (ts w : Int) (rows : List NormalizedRow) (m : EndpointMetric)
    (hm : m ∈ (aggregate cfg sid ts w rows).endpoints ∨
        m ∈ (aggregate cfg sid ts w rows).critical ∨
          m ∈ (aggregate cfg sid ts w rows).most_used ∨
            m ∈ (aggregate cfg sid ts w rows).most_failed) :
    (m.total_requests = 0 → m.error_rate = 0) ∧
      (m.total_requests ≠ 0 →
        m.error_rate = (m.total_errors : ℚ) / (m.total_requests : ℚ) * 100) ∧
      ((aggregate cfg sid ts w rows).overall_metrics.total_requests = 0 →
        (aggregate cfg sid ts w rows).overall_metrics.overall_error_rate = 0) ∧
      ((aggregate cfg sid ts w rows).overall_metrics.total_requests ≠ 0 →
        (aggregate cfg sid ts w rows).overall_metrics.overall_error_rate =
          ((aggregate cfg sid ts w rows).overall_metrics.total_errors : ℚ) /
            ((aggregate cfg sid ts w rows).overall_metrics.total_requests : ℚ) * 100) := by
  rcases mem_aggregate_views hm with ⟨e, he⟩
  subst he
  refine ⟨fun h0 => ?_, fun h0 => ?_, fun h0 => ?_, fun h0 => ?_⟩
  · simp only [metricFor, errorRateOf] at h0 ⊢
    simp [h0]
  · simp only [metricFor, errorRateOf] at h0 ⊢
    simp [h0]
  · simp only [aggregate, overallOf, errorRateOf] at h0 ⊢
    simp [h0]
  · simp only [aggregate, overallOf, errorRateOf] at h0 ⊢
    simp [h0]

/-- Witness for C2: on the concrete three-row batch the aggregated metric has
error rate 2/3 of one hundred. -/
theorem error_rate_defined_by_division_witness :
    (metricFor rowsW "a").error_rate =
      ((metricFor rowsW "a").total_errors : ℚ) /
        ((metricFor rowsW "a").total_requests : ℚ) * 100 :=
  (error_rate_defined_by_division defaultAggregatorConfig "s" 0 0 rowsW
      (metricFor rowsW "a")
      (Or.inl (rowsW_endpoints ▸ List.mem_singleton_self _))).2.1
    (by decide)

/-- Surviving rows plus skipped rows account for every raw record. -/
lemma normalizeAll_length (raws : List RawRecord) :
    (normalizeAll raws).1.length + (normalizeAll raws).2 = raws.length := by
  induction raws with
  | nil => simp [normalizeAll]
  | cons r t ih =>
    simp only [normalizeAll, List.foldr_cons] at ih ⊢
    cases h : normalizeRow r <;> simp [h] <;> omega

/-- Dedup of the list and dedup-free membership give the same finset. -/
lemma dedup_toFinset {α : Type} [DecidableEq α] (l : List α) :
    l.dedup.toFinset = l.toFinset := by
  apply Finset.ext
  intro x
  simp [List.mem_toFinset, List.mem_dedup]

/-- The request count of one group is the key count of the key list. -/
lemma metricFor_total_requests (rows : List NormalizedRow) (e : String) :
    (metricFor rows e).total_requests = (rows.map (fun r => r.endpoint)).count e := by
  show (rowsFor rows e).length = (rows.map (fun r => r.endpoint)).count e
  rw [rowsFor, ← List.countP_eq_length_filter, List.count_eq_countP, List.countP_map]
  rfl

/-- The per-group request counts sum to the row count: grouping loses no row. -/
lemma sum_group_requests (rows : List NormalizedRow) :
    ((keysInOrder rows).map (fun e => (metricFor rows e).total_requests)).sum =
      rows.length := by
  have hcong :
      ((keysInOrder rows).map (fun e => (metricFor rows e).total_requests)).sum =
        ((rows.map (fun r => r.endpoint)).dedup.map
            (fun e => (rows.map (fun r => r.endpoint)).count e)).sum := by
    unfold keysInOrder
    congr 1
    exact List.map_congr_left fun e _ => metricFor_total_requests rows e
  rw [hcong, ← List.sum_toFinset _ (List.nodup_dedup _), dedup_toFinset,
    List.sum_toFinset_count_eq_length, List.length_map]

/-- C3: for every raw row set, the aggregated snapshot's overall request count
equals the number of input rows minus the rows that failed normalization;
failing rows are skipped and counted on the result, never fatal. -/
theorem aggregate_requests_account_for_skipped (cfg : AggregatorConfig)
    (sid : String) (ts w : Int) (raws : List RawRecord) :
    (aggregateRaw cfg sid ts w raws).snapshot.overall_metrics.total_requests +
        (aggregateRaw cfg sid ts w raws).skipped_count = raws.length ∧
      (aggregateRaw cfg sid ts w raws).snapshot.overall_metrics.total_requests =
        raws.length - (aggregateRaw cfg sid ts w raws).skipped_count := by
  have hreq :
      (aggregateRaw cfg sid ts w raws).snapshot.overall_metrics.total_requests =
        (normalizeAll raws).1.length := by
    show ((keysInOrder (normalizeAll raws).1).map
        (fun e => (metricFor (normalizeAll raws).1 e).total_requests)).sum =
      (normalizeAll raws).1.length
    exact sum_group_requests _
  have hsk : (aggregateRaw cfg sid ts w raws).skipped_count =
      (normalizeAll raws).2 := rfl
  constructor
  · rw [hreq, hsk]
    exact normalizeAll_length raws
  · rw [hreq, hsk]
    have := normalizeAll_length raws
    omega

/-- C4: aggregating the empty row sequence yields a valid snapshot with
all-zero overall metrics and empty endpoint, critical, most_used and
most_failed lists; being a total function, it never raises. -/
theorem aggregate_empty_is_all_zero (cfg : AggregatorConfig) (sid : String)
    (ts w : Int) :
    (aggregate cfg sid ts w []).overall_metrics =
        { total_requests := 0, total_errors := 0, overall_error_rate := 0,
          unique_endpoints := 0 } ∧
      (aggregate cfg sid ts w []).endpoints = [] ∧
      (aggregate cfg sid ts w []).critical = [] ∧
      (aggregate cfg sid ts w []).most_used = [] ∧
      (aggregate cfg sid ts w []).most_failed = [] := by
  refine ⟨?_, rfl, rfl, ?_, ?_⟩
  · simp [aggregate, overallOf, keysInOrder, errorRateOf]
  · simp [aggregate, mostUsed, sortedKeys, keysInOrder]
  · simp [aggregate, mostFailed, sortedKeys, keysInOrder]

/-- Example metric with a prescribed error rate, under the endpoint key x. -/
def metricX (rate : ℚ) : EndpointMetric :=
  { endpoint := "x", total_requests := 100, total_errors := 2,
    client_errors_4xx := 2, server_errors_5xx := 0, error_rate := rate,
    avg_response_time := none, unique_clients := 1 }

/-- Example one-endpoint snapshot with a prescribed error rate. -/
def snapX (rate : ℚ) : Snapshot :=
  { snapshot_id := "p", timestamp := 0, time_window := 0,
    overall_metrics :=
      { total_requests := 100, total_errors := 2, overall_error_rate := rate,
        unique_endpoints := 1 },
    endpoints := [metricX rate], critical := [], most_used := [],
    most_failed := [] }

/-- C5: for every endpoint present in both snapshots the Trend Comparator
emits a trend whose change is the error-rate difference in percentage points,
degrading exactly above the degrading threshold (default +5) and improving
exactly below the improving threshold (default −5); an endpoint going from 2
percent to 10 percent yields change 8 with is_degrading true. -/
theorem trend_change_in_percentage_points :
    (∀ deg imp : ℚ, ∀ prev cur : Snapshot, ∀ m p : EndpointMetric,
        m ∈ cur.endpoints → findMetric prev m.endpoint = some p →
          trendFor deg imp prev m ∈ compare_snapshots deg imp prev cur ∧
            (trendFor deg imp prev m).previous_error_rate = p.error_rate ∧
            (trendFor deg imp prev m).current_error_rate = m.error_rate ∧
            (trendFor deg imp prev m).change_percentage =
              m.error_rate - p.error_rate ∧
            ((trendFor deg imp prev m).is_degrading = true ↔
              deg < m.error_rate - p.error_rate) ∧
            ((trendFor deg imp prev m).is_improving = true ↔
              m.error_rate - p.error_rate < imp)) ∧
      defaultDegradingThreshold = 5 ∧
      defaultImprovingThreshold = -5 ∧
      compare_snapshots defaultDegradingThreshold defaultImprovingThreshold
          (snapX 2) (snapX 10) =
        [{ endpoint := "x", previous_error_rate := 2, current_error_rate := 10,
           change_percentage := 8, is_degrading := true, is_improving := false,
           is_new := false }] := by
  refine ⟨?_, rfl, rfl, ?_⟩
  · intro deg imp prev cur m p hm hp
    refine ⟨List.mem_map.mpr ⟨m, hm, rfl⟩, ?_, ?_, ?_, ?_, ?_⟩ <;>
      simp [trendFor, hp]
  · simp only [compare_snapshots, snapX, List.map_cons, List.map_nil]
    have hfind : findMetric (snapX 2) (metricX 10).endpoint = some (metricX 2) := rfl
    simp only [snapX] at hfind
    rw [trendFor, hfind]
    simp only [metricX, defaultDegradingThreshold, defaultImprovingThreshold]
    norm_num

/-- Witness for C5: the general part instantiated on the concrete pair of
snapshots with rates 2 and 10. -/
theorem trend_change_in_percentage_points_witness :
    (trendFor defaultDegradingThreshold defaultImprovingThreshold (snapX 2)
          (metricX 10)).change_percentage =
      (metricX 10).error_rate - (metricX 2).error_rate :=
  (trend_change_in_percentage_points.1 defaultDegradingThreshold
      defaultImprovingThreshold (snapX 2) (snapX 10) (metricX 10) (metricX 2)
      (List.mem_singleton_self _) rfl).2.2.2.1

lemma charsLE_total : ∀ x y : List Char, charsLE x y = true ∨ charsLE y x = true := by
  intro x
  induction x with
  | nil => intro y; left; rfl
  | cons a as ih =>
    intro y
    cases y with
    | nil => right; rfl
    | cons b bs =>
      by_cases hab : a.toNat < b.toNat
      · left; simp [charsLE, hab]
      · by_cases hba : b.toNat < a.toNat
        · right; simp [charsLE, hba]
        · rcases ih bs with h | h
          · left; simp [charsLE, hab, hba, h]
          · right; simp [charsLE, hab, hba, h]

lemma charsLE_trans :
    ∀ x y z : List Char, charsLE x y = true → charsLE y z = true →
      charsLE x z = true := by
  intro x
  induction x with
  | nil => intro y z _ _; rfl
  | cons a as ih =>
    intro y z hxy hyz
    cases y with
    | nil => simp [charsLE] at hxy
    | cons b bs =>
      cases z with
      | nil => simp [charsLE] at hyz
      | cons c cs =>
        simp only [charsLE] at hxy hyz ⊢
        by_cases hab : a.toNat < b.toNat
        · by_cases hbc : b.toNat < c.toNat
          · rw [if_pos (by omega : a.toNat < c.toNat)]
          · by_cases hcb : c.toNat < b.toNat
            · rw [if_neg hbc, if_pos hcb] at hyz
              exact absurd hyz (by simp)
            · rw [if_pos (by omega : a.toNat < c.toNat)]
        · by_cases hba : b.toNat < a.toNat
          · rw [if_neg hab, if_pos hba] at hxy
            exact absurd hxy (by simp)
          · rw [if_neg hab, if_neg hba] at hxy
            by_cases hbc : b.toNat < c.toNat
            · rw [if_pos (by omega : a.toNat < c.toNat)]
            · by_cases hcb : c.toNat < b.toNat
              · rw [if_neg hbc, if_pos hcb] at hyz
                exact absurd hyz (by simp)
              · rw [if_neg hbc, if_neg hcb] at hyz
                rw [if_neg (by omega : ¬a.toNat < c.toNat),
                  if_neg (by omega : ¬c.toNat < a.toNat)]
                exact ih bs cs hxy hyz

lemma charsLE_antisymm :
    ∀ x y : List Char, charsLE x y = true → charsLE y x = true → x = y := by
  intro x
  induction x with
  | nil =>
    intro y _ hyx
    cases y with
    | nil => rfl
    | cons b bs => simp [charsLE] at hyx
  | cons a as ih =>
    intro y hxy hyx
    cases y with
    | nil => simp [charsLE] at hxy
    | cons b bs =>
      simp only [charsLE] at hxy hyx
      by_cases hab : a.toNat < b.toNat
      · rw [if_neg (by omega : ¬b.toNat < a.toNat), if_pos hab] at hyx
        exact absurd hyx (by simp)
      · by_cases hba : b.toNat < a.toNat
        · rw [if_neg hab, if_pos hba] at hxy
          exact absurd hxy (by simp)
        · rw [if_neg hab, if_neg hba] at hxy
          rw [if_neg hba, if_neg hab] at hyx
          have hn : a.toNat = b.toNat := by omega
          have hcc : a = b := Char.eq_of_val_eq (UInt32.ext hn)
          rw [hcc, ih bs hxy hyx]

instance : IsTotal String strLE :=
  ⟨fun a b => charsLE_total a.data b.data⟩

instance : IsTrans String strLE :=
  ⟨fun a b c => charsLE_trans a.data b.data c.data⟩

instance : IsAntisymm String strLE :=
  ⟨fun a b hab hba => by
    have h := charsLE_antisymm a.data b.data hab hba
    cases a
    cases b
    exact congrArg String.mk h⟩

instance : IsTotal Recommendation recBefore :=
  ⟨fun a b => by
    unfold recBefore
    rcases lt_trichotomy a.priority_score b.priority_score with h | h | h
    · right; left; exact h
    · rcases total_of strLE a.endpoint b.endpoint with hs | hs
      · left; right; exact ⟨h, hs⟩
      · right; right; exact ⟨h.symm, hs⟩
    · left; left; exact h⟩

instance : IsTrans Recommendation recBefore :=
  ⟨fun a b c hab hbc => by
    unfold recBefore at hab hbc ⊢
    rcases hab with h1 | ⟨h1, h1s⟩ <;> rcases hbc with h2 | ⟨h2, h2s⟩
    · left; exact h2.trans h1
    · left; exact lt_of_eq_of_lt h2.symm h1
    · left; exact lt_of_lt_of_eq h2 h1.symm
    · right; exact ⟨h1.trans h2, charsLE_trans _ _ _ h1s h2s⟩⟩

instance : IsTotal Snapshot olderFirst :=
  ⟨fun a b => Int.le_total a.timestamp b.timestamp⟩

instance : IsTrans Snapshot olderFirst :=
  ⟨fun _ _ _ hab hbc => Int.le_trans hab hbc⟩

/-- High-traffic safe endpoint of the C6 example: 1000 requests, 0.1 percent
error rate. -/
def metricA : EndpointMetric :=
  { endpoint := "a", total_requests := 1000, total_errors := 1,
    client_errors_4xx := 1, server_errors_5xx := 0, error_rate := 1 / 10,
    avg_response_time := none, unique_clients := 10 }

/-- Low-traffic broken endpoint of the C6 example: 10 requests, 50 percent
error rate. -/
def metricB : EndpointMetric :=
  { endpoint := "b", total_requests := 10, total_errors := 5,
    client_errors_4xx := 0, server_errors_5xx := 5, error_rate := 50,
    avg_response_time := none, unique_clients := 2 }

/-- Example snapshot holding the two endpoints of the C6 scenario. -/
def snapAB : Snapshot :=
  { snapshot_id := "ab", timestamp := 0, time_window := 0,
    overall_metrics :=
      { total_requests := 1010, total_errors := 6,
        overall_error_rate := 600 / 1010, unique_endpoints := 2 },
    endpoints := [metricA, metricB], critical := [], most_used := [],
    most_failed := [] }

lemma maxRequests_AB : maxRequests snapAB = 1000 := by decide

lemma maxErrorRate_AB : maxErrorRate snapAB = 50 := by
  show max ((1 : ℚ) / 10) (max 50 0) = 50
  norm_num

lemma scoreA_val : priorityScore defaultEngineConfig snapAB metricA = 501 / 10 := by
  simp only [priorityScore, normalizedVolume, normalizedError, maxRequests_AB,
    maxErrorRate_AB, defaultEngineConfig, metricA]
  norm_num

lemma scoreB_val : priorityScore defaultEngineConfig snapAB metricB = 101 / 2 := by
  simp only [priorityScore, normalizedVolume, normalizedError, maxRequests_AB,
    maxErrorRate_AB, defaultEngineConfig, metricB]
  norm_num

lemma recs_AB :
    generate_prioritized_recommendations defaultEngineConfig (some snapAB) none =
      [mkRecommendation defaultEngineConfig snapAB metricB,
        mkRecommendation defaultEngineConfig snapAB metricA] := by
  have hnot :
      ¬recBefore (mkRecommendation defaultEngineConfig snapAB metricA)
          (mkRecommendation defaultEngineConfig snapAB metricB) := by
    unfold recBefore
    rintro (h | ⟨h, _⟩)
    · simp only [mkRecommendation, scoreA_val, scoreB_val] at h
      norm_num at h
    · simp only [mkRecommendation, scoreA_val, scoreB_val] at h
      norm_num at h
  show (List.map (mkRecommendation defaultEngineConfig snapAB)
      [metricA, metricB]).insertionSort recBefore = _
  simp only [List.map_cons, List.map_nil, List.insertionSort, List.orderedInsert]
  rw [if_neg hnot]

/-- C6: in the prioritized pass every endpoint whose error rate is above the
high-severity cutoff is labelled critical regardless of its volume score, the
output is ordered by priority score descending with name-ascending
tie-breaks, and in the concrete two-endpoint snapshot the broken low-traffic
endpoint is ranked critical ahead of the safe high-traffic one. -/
theorem prioritized_severity_floor_and_order :
    (∀ cfg : EngineConfig, ∀ s : Snapshot, ∀ t : Option (List Trend),
        ∀ m : EndpointMetric,
        m ∈ s.endpoints → cfg.high_severity_cutoff < m.error_rate →
          mkRecommendation cfg s m ∈
              generate_prioritized_recommendations cfg (some s) t ∧
            (mkRecommendation cfg s m).priority = Priority.critical) ∧
      (∀ cfg : EngineConfig, ∀ s : Snapshot, ∀ t : Option (List Trend),
        List.Sorted recBefore (generate_prioritized_recommendations cfg (some s) t)) ∧
      (generate_prioritized_recommendations defaultEngineConfig (some snapAB)
            none).map (fun r => (r.endpoint, r.priority)) =
        [("b", Priority.critical), ("a", Priority.medium)] := by
  refine ⟨?_, ?_, ?_⟩
  · intro cfg s t m hm hrate
    constructor
    · show mkRecommendation cfg s m ∈
        (s.endpoints.map (mkRecommendation cfg s)).insertionSort recBefore
      rw [List.mem_insertionSort]
      exact List.mem_map.mpr ⟨m, hm, rfl⟩
    · simp [mkRecommendation, priorityOf, hrate]
  · intro cfg s t
    exact List.sorted_insertionSort recBefore _
  · rw [recs_AB]
    have hb1 : defaultEngineConfig.high_severity_cutoff < metricB.error_rate := by
      norm_num [defaultEngineConfig, metricB]
    have hb : (mkRecommendation defaultEngineConfig snapAB metricB).priority =
        Priority.critical := by
      show priorityOf defaultEngineConfig snapAB metricB = Priority.critical
      simp only [priorityOf]
      rw [if_pos hb1]
    have h1 : ¬defaultEngineConfig.high_severity_cutoff < metricA.error_rate := by
      norm_num [defaultEngineConfig, metricA]
    have h2 : ¬defaultEngineConfig.critical_score ≤
        priorityScore defaultEngineConfig snapAB metricA := by
      rw [scoreA_val]; norm_num [defaultEngineConfig]
    have h3 : ¬defaultEngineConfig.high_score ≤
        priorityScore defaultEngineConfig snapAB metricA := by
      rw [scoreA_val]; norm_num [defaultEngineConfig]
    have h4 : defaultEngineConfig.medium_score ≤
        priorityScore defaultEngineConfig snapAB metricA := by
      rw [scoreA_val]; norm_num [defaultEngineConfig]
    have ha : (mkRecommendation defaultEngineConfig snapAB metricA).priority =
        Priority.medium := by
      show priorityOf defaultEngineConfig snapAB metricA = Priority.medium
      simp only [priorityOf]
      rw [if_neg h1, if_neg h2, if_neg h3, if_pos h4]
    simp only [List.map_cons, List.map_nil, hb, ha]
    rfl

/-- Witness for C6: the severity floor applied to the concrete broken
endpoint of the example snapshot. -/
theorem prioritized_severity_floor_and_order_witness :
    mkRecommendation defaultEngineConfig snapAB metricB ∈
        generate_prioritized_recommendations defaultEngineConfig (some snapAB)
          none ∧
      (mkRecommendation defaultEngineConfig snapAB metricB).priority =
        Priority.critical :=
  prioritized_severity_floor_and_order.1 defaultEngineConfig snapAB none
    metricB (by simp [snapAB]) (by norm_num [metricB, defaultEngineConfig])

/-- C7: the Recommendation Engine never raises (every pass is a total
function); a missing snapshot or a missing optional input degrades exactly the
affected pass to the empty list, while the prioritized pass produces the same
results whatever the optional trends input is. -/
theorem engine_degrades_to_empty_lists :
    (∀ cfg : EngineConfig, ∀ t : Option (List Trend),
        generate_prioritized_recommendations cfg none t = []) ∧
      (∀ s : Option Snapshot, identify_regression_risks s none = []) ∧
      (∀ t : Option (List Trend), identify_regression_risks none t = []) ∧
      (∀ cfg : EngineConfig, ∀ s : Option Snapshot,
        suggest_test_coverage_gaps cfg s none = []) ∧
      (∀ cfg : EngineConfig, ∀ inv : Option (List InventoryEntry),
        suggest_test_coverage_gaps cfg none inv = []) ∧
      (∀ cfg : EngineConfig, ∀ s : Snapshot, ∀ t u : Option (List Trend),
        generate_prioritized_recommendations cfg (some s) t =
          generate_prioritized_recommendations cfg (some s) u) := by
  refine ⟨fun cfg t => rfl, fun s => ?_, fun t => ?_, fun cfg s => ?_,
    fun cfg inv => ?_, fun cfg s t u => rfl⟩
  · cases s <;> rfl
  · cases t <;> rfl
  · cases s <;> rfl
  · cases inv <;> rfl

/-- Permuting the input rows permutes every endpoint group. -/
lemma rowsFor_perm {rows1 rows2 : List NormalizedRow}
    (h : rows1.Perm rows2) (e : String) :
    (rowsFor rows1 e).Perm (rowsFor rows2 e) := h.filter _

/-- The per-endpoint metric is invariant under permutation of the input. -/
lemma metricFor_congr {rows1 rows2 : List NormalizedRow}
    (h : rows1.Perm rows2) : metricFor rows1 = metricFor rows2 := by
  funext e
  have hg := rowsFor_perm h e
  have hlen := hg.length_eq
  have herr := hg.countP_eq (fun r => isError r.status_code)
  have h4 := hg.countP_eq (fun r => is4xx r.status_code)
  have h5 := hg.countP_eq (fun r => is5xx r.status_code)
  have htimes := hg.filterMap (fun r => r.response_time_ms)
  have hclients := hg.filterMap (fun r => r.client_id)
  simp only [metricFor, avgResponseTime, uniqueClients, hlen, herr, h4, h5,
    htimes.length_eq, htimes.sum_eq, hclients.dedup.length_eq]

/-- The discovery-order key lists of permuted inputs are permutations. -/
lemma keysInOrder_perm {rows1 rows2 : List NormalizedRow}
    (h : rows1.Perm rows2) : (keysInOrder rows1).Perm (keysInOrder rows2) := by
  unfold keysInOrder
  exact (h.map (fun r => r.endpoint)).dedup

/-- The canonical sorted key list is identical for permuted inputs. -/
lemma sortedKeys_congr {rows1 rows2 : List NormalizedRow}
    (h : rows1.Perm rows2) : sortedKeys rows1 = sortedKeys rows2 := by
  exact List.eq_of_perm_of_sorted
    (((List.perm_insertionSort strLE _).trans (keysInOrder_perm h)).trans
      (List.perm_insertionSort strLE _).symm)
    (List.sorted_insertionSort strLE _) (List.sorted_insertionSort strLE _)

/-- C8 (amended): under permutation of the input rows the aggregation keeps
the per-endpoint metrics, the overall metrics and the most_used/most_failed
orderings identical, and the endpoints sequence and critical view identical up
to permutation (they follow discovery order). -/
theorem aggregate_perm_invariant (cfg : AggregatorConfig) (sid : String)
    (ts w : Int) (rows1 rows2 : List NormalizedRow) (hp : rows1.Perm rows2) :
    metricFor rows1 = metricFor rows2 ∧
      (aggregate cfg sid ts w rows1).overall_metrics =
        (aggregate cfg sid ts w rows2).overall_metrics ∧
      (aggregate cfg sid ts w rows1).most_used =
        (aggregate cfg sid ts w rows2).most_used ∧
      (aggregate cfg sid ts w rows1).most_failed =
        (aggregate cfg sid ts w rows2).most_failed ∧
      (aggregate cfg sid ts w rows1).endpoints.Perm
        (aggregate cfg sid ts w rows2).endpoints ∧
      (aggregate cfg sid ts w rows1).critical.Perm
        (aggregate cfg sid ts w rows2).critical := by
  have hmf := metricFor_congr hp
  have hkeys := keysInOrder_perm hp
  have hsorted := sortedKeys_congr hp
  have hendp : (endpointsOf rows1).Perm (endpointsOf rows2) := by
    unfold endpointsOf
    rw [hmf]
    exact hkeys.map _
  refine ⟨hmf, ?_, ?_, ?_, hendp, hendp.filter _⟩
  · show overallOf rows1 = overallOf rows2
    unfold overallOf
    rw [hmf, (hkeys.map (fun e => (metricFor rows2 e).total_requests)).sum_eq,
      (hkeys.map (fun e => (metricFor rows2 e).total_errors)).sum_eq,
      hkeys.length_eq]
  · show mostUsed cfg rows1 = mostUsed cfg rows2
    unfold mostUsed
    rw [hmf, hsorted]
  · show mostFailed cfg rows1 = mostFailed cfg rows2
    unfold mostFailed
    rw [hmf, hsorted]

/-- Two single-row batches under the endpoint keys a and b, in both orders. -/
def rowA : NormalizedRow :=
  { endpoint := "a", method := "GET", status_code := 200,
    response_time_ms := none, client_id := none, timestamp := 0 }

/-- Second row of the reordering example, under endpoint key b. -/
def rowB : NormalizedRow :=
  { endpoint := "b", method := "GET", status_code := 500,
    response_time_ms := none, client_id := none, timestamp := 0 }

/-- Counterexample to C8 as stated: the two-row batches [rowA, rowB] and
[rowB, rowA] are permutations of each other, yet the two aggregated snapshots
are not identical, because the endpoints sequence follows discovery order. -/
theorem aggregate_perm_not_identical :
    ([rowA, rowB] : List NormalizedRow).Perm [rowB, rowA] ∧
      aggregate defaultAggregatorConfig "s" 0 0 [rowA, rowB] ≠
        aggregate defaultAggregatorConfig "s" 0 0 [rowB, rowA] := by
  constructor
  · exact List.Perm.swap rowB rowA []
  · intro h
    have h2 := congrArg (fun s => s.endpoints.map (fun m => m.endpoint)) h
    have e1 : (aggregate defaultAggregatorConfig "s" 0 0
        [rowA, rowB]).endpoints.map (fun m => m.endpoint) = ["a", "b"] := rfl
    have e2 : (aggregate defaultAggregatorConfig "s" 0 0
        [rowB, rowA]).endpoints.map (fun m => m.endpoint) = ["b", "a"] := rfl
    simp only [e1, e2] at h2
    exact absurd h2 (by decide)

/-- Witness for C8 (amended): instantiated on the concrete reordered pair of
two-row batches. -/
theorem aggregate_perm_invariant_witness :
    (aggregate defaultAggregatorConfig "s" 0 0 [rowA, rowB]).most_used =
        (aggregate defaultAggregatorConfig "s" 0 0 [rowB, rowA]).most_used ∧
      (aggregate defaultAggregatorConfig "s" 0 0 [rowA, rowB]).overall_metrics =
        (aggregate defaultAggregatorConfig "s" 0 0 [rowB, rowA]).overall_metrics :=
  ⟨(aggregate_perm_invariant defaultAggregatorConfig "s" 0 0 [rowA, rowB]
      [rowB, rowA] (List.Perm.swap rowB rowA [])).2.2.1,
    (aggregate_perm_invariant defaultAggregatorConfig "s" 0 0 [rowA, rowB]
      [rowB, rowA] (List.Perm.swap rowB rowA [])).2.1⟩

/-- C9 (divergence evidence): `get_reactive_metrics.print_metrics` renders a
record without timing data as "0ms" (the dict default 0) and fails with
TypeError on an explicit null, while `process_splunk_export.print_metrics`
renders the same missing value as "N/A" and never fails. -/
theorem avg_time_missing_rendered_as_zero :
    grm_avg_time_cell none = Except.ok "0ms" ∧
      (∃ msg, grm_avg_time_cell (some none) = Except.error msg) ∧
      pse_avg_time_cell none = "N/A" := by
  refine ⟨?_, ⟨_, rfl⟩, rfl⟩
  show Except.ok (format0f 0 ++ "ms") = Except.ok "0ms"
  norm_num [format0f]
  rfl

/-- With pairwise-distinct endpoint keys, the metric found for a contained
metric's own key is that metric itself. -/
lemma find_self_of_nodup {l : List EndpointMetric}
    (hn : (l.map (fun m => m.endpoint)).Nodup) {m : EndpointMetric}
    (hm : m ∈ l) : l.find? (fun p => p.endpoint == m.endpoint) = some m := by
  induction l with
  | nil => cases hm
  | cons a t ih =>
    rcases List.mem_cons.mp hm with rfl | hm2
    · exact List.find?_cons_of_pos _ (by simp)
    · have hn2 : ((a :: t).map (fun m => m.endpoint)).Nodup := hn
      rw [List.map_cons, List.nodup_cons] at hn2
      have hne : (a.endpoint == m.endpoint) = false := by
        apply beq_eq_false_iff_ne.mpr
        intro hcontr
        exact hn2.1 (hcontr ▸ List.mem_map.mpr ⟨m, hm2, rfl⟩)
      rw [List.find?_cons_of_neg _ (by simp [hne])]
      exact ih hn2.2 hm2

/-- C10: the trend baseline of `generate_html_report.main` is the first,
oldest element of the one-day range query whenever that query is non-empty
(never the nearest preceding snapshot); because the range's upper bound is
the current snapshot's own timestamp, the current snapshot can be selected as
its own baseline, and a self-comparison gives change 0 for every shared
endpoint. -/
theorem baseline_is_oldest_in_window :
    (∀ store : List Snapshot, ∀ s b : Snapshot,
        chooseBaseline store s = some b →
          b ∈ get_snapshots_in_range store (s.timestamp - oneDay) s.timestamp ∧
            ∀ x ∈ get_snapshots_in_range store (s.timestamp - oneDay)
                s.timestamp, b.timestamp ≤ x.timestamp) ∧
      (∀ store : List Snapshot, ∀ s : Snapshot,
        get_snapshots_in_range store (s.timestamp - oneDay) s.timestamp ≠ [] →
          ∃ b, chooseBaseline store s = some b) ∧
      (∀ s : Snapshot, chooseBaseline [s] s = some s) ∧
      (∀ deg imp : ℚ, ∀ s : Snapshot,
        (s.endpoints.map (fun m => m.endpoint)).Nodup →
          ∀ t ∈ compare_snapshots deg imp s s,
            t.change_percentage = 0 ∧ t.is_new = false) := by
  refine ⟨?_, ?_, ?_, ?_⟩
  · intro store s b hb
    have hsorted : List.Sorted olderFirst
        (get_snapshots_in_range store (s.timestamp - oneDay) s.timestamp) :=
      List.sorted_insertionSort olderFirst _
    unfold chooseBaseline at hb
    cases hl : get_snapshots_in_range store (s.timestamp - oneDay) s.timestamp with
    | nil => rw [hl] at hb; cases hb
    | cons x xs =>
      rw [hl] at hb hsorted
      have hbx : x = b := by
        have := hb
        simp only [List.head?] at this
        exact Option.some.inj this
      subst hbx
      refine ⟨List.mem_cons_self _ _, ?_⟩
      intro y hy
      rcases List.mem_cons.mp hy with rfl | hy2
      · exact le_refl _
      · exact (List.sorted_cons.mp hsorted).1 y hy2
  · intro store s hne
    unfold chooseBaseline
    cases hl : get_snapshots_in_range store (s.timestamp - oneDay) s.timestamp with
    | nil => exact absurd hl hne
    | cons x xs => exact ⟨x, rfl⟩
  · intro s
    have hc : (decide (s.timestamp - oneDay ≤ s.timestamp) &&
        decide (s.timestamp ≤ s.timestamp)) = true := by
      simp only [Bool.and_eq_true, decide_eq_true_eq]
      unfold oneDay
      omega
    have hrange : get_snapshots_in_range [s] (s.timestamp - oneDay)
        s.timestamp = [s] := by
      unfold get_snapshots_in_range
      rw [List.filter_cons]
      simp only [hc, if_true, List.filter_nil]
      rfl
    unfold chooseBaseline
    rw [hrange]
    rfl
  · intro deg imp s hn t ht
    rcases List.mem_map.mp ht with ⟨m, hm, hmt⟩
    subst hmt
    have hfind : findMetric s m.endpoint = some m := find_self_of_nodup hn hm
    unfold trendFor
    rw [hfind]
    simp

/-- Witness for C10: the one-snapshot store selects the snapshot as its own
baseline, and the self-comparison trend of its endpoint has change 0. -/
theorem baseline_is_oldest_in_window_witness :
    chooseBaseline [snapX 2] (snapX 2) = some (snapX 2) ∧
      ((trendFor defaultDegradingThreshold defaultImprovingThreshold (snapX 2)
            (metricX 2)).change_percentage = 0 ∧
        (trendFor defaultDegradingThreshold defaultImprovingThreshold (snapX 2)
            (metricX 2)).is_new = false) :=
  ⟨baseline_is_oldest_in_window.2.2.1 (snapX 2),
    baseline_is_oldest_in_window.2.2.2 defaultDegradingThreshold
      defaultImprovingThreshold (snapX 2) (by simp [snapX, metricX])
      (trendFor defaultDegradingThreshold defaultImprovingThreshold (snapX 2)
        (metricX 2))
      (List.mem_map.mpr ⟨metricX 2, List.mem_singleton_self _, rfl⟩)⟩

end Reactive
